import Mathlib

/-!
# Verification of Olive's media-input node evaluation and audio render backend

Shallow embedding of the Olive video editor sources:

* `src/app/node/input/media/media.cpp` — `MediaInput::Value`, the
  texture-producing node evaluation (decoder resolution, stream binding,
  frame retrieval, color management, GPU texture upload and blit).
* `src/app/render/backend/audiorenderbackend.h` — the audio render
  backend interface (`SetParameters`, `GenerateCacheIDInternal`,
  `RangesOverlap`, `CombineRange`).  Only the declarations of these
  members appear in the excerpt, so their bodies are modelled from the
  specification where needed (each such definition is marked
  `Modelled from the spec:`).

External collaborators (decoders, the OpenGL context, OpenColorIO, the
pixel-format converter) are modelled as an environment of pure functions
(`Env`); each call into them emits an event (`Ev`) so that theorems can
speak about which external operations an evaluation performed and in
which order.  `MediaInput::Value` itself is translated into a total Lean
function from an environment, a node state and the call arguments to an
`EvalResult` (returned `QVariant` value, updated member state, event
trace); early `return 0;` paths in the C++ become early constructor
returns of `QVal.empty`.
-/

/-- Pixel formats (`olive::PixelFormat`).  `rgba32F` is
`olive::PIX_FMT_RGBA32F`, the high-precision float format required by the
OpenColorIO CPU transform; other members of the enum are collapsed into
`other n` since `MediaInput::Value` never inspects them. -/
inductive PixelFormat where
  | rgba8
  | rgba16
  | rgba32F
  | other (n : Nat)
deriving DecidableEq, BEq

/-- Render mode (`olive::RenderMode`): `kOnline` prefers accuracy,
`kOffline` prefers performance. -/
inductive RenderMode where
  | online
  | offline
deriving DecidableEq, BEq

/-- A decoded frame (`Frame`): pixel buffer with width, height and pixel
format.  The pixel bytes are modelled as a list of naturals. -/
structure Frame where
  width : Nat
  height : Nat
  format : PixelFormat
  data : List Nat
deriving DecidableEq, BEq

/-- A decoder instance (`Decoder`).  The only state `MediaInput::Value`
reads or writes on it is the bound stream (`stream()` / `set_stream`);
streams are identified by their index. -/
structure Decoder where
  stream : Option Nat
deriving DecidableEq, BEq

/-- A footage reference (`Footage*`): carries the decoder kind id
(`footage->decoder()`) and its stream 0 (`footage->stream(0)`, the
hardcoded stream used by `MediaInput::Value`). -/
structure Footage where
  decoderID : String
  stream0 : Nat
deriving DecidableEq, BEq

/-- The color service (`ColorService(src, role)`), constructed by
`MediaInput::Value` with the hardcoded arguments
`("srgb", OCIO::ROLE_SCENE_LINEAR)`. -/
structure ColorService where
  srcSpace : String
  dstRole : String
deriving DecidableEq, BEq

/-- Shader pipelines produced by `olive::ShaderGenerator`.
`defaultPipeline` is `ShaderGenerator::DefaultPipeline()`, a plain blit
shader; `ocioPipeline` is `ShaderGenerator::OCIOPipeline(...)`, the
OCIO-processor-carrying shader referenced (but commented out) in
`MediaInput::Value`'s offline branch. -/
inductive Pipeline where
  | defaultPipeline
  | ocioPipeline
deriving DecidableEq, BEq

/-- Whether a pipeline performs a color-space transform during the blit:
only the OCIO pipeline wraps a color processor; the default pipeline is a
plain textured blit. -/
def Pipeline.appliesColorTransform : Pipeline → Bool
  | .defaultPipeline => false
  | .ocioPipeline => true

/-- The ambient render instance (`RenderInstance*` obtained from
`RendererProcessor::CurrentInstance()`): render mode and the output
parameters (`width()`, `height()`, `format()`) used to size the output
texture.  The GL context handle is opaque and omitted. -/
structure RenderInstance where
  mode : RenderMode
  width : Nat
  height : Nat
  format : PixelFormat
deriving DecidableEq, BEq

/-- The internal `RenderTexture` of a `MediaInput` node once created:
dimensions, format and the uploaded pixel data.  `MediaInput`'s
`internal_tex_` member is an `Option TexRec` (`none` = not created). -/
structure TexRec where
  width : Nat
  height : Nat
  format : PixelFormat
  data : List Nat
deriving DecidableEq, BEq

/-- The output `RenderTexture` produced by one evaluation: created with
the renderer's dimensions and format in double-buffered mode; `content`
is the result of blitting the internal texture through the selected
pipeline. -/
structure RenderTexture where
  width : Nat
  height : Nat
  format : PixelFormat
  doubleBuffer : Bool
  content : List Nat
deriving DecidableEq, BEq

/-- The `QVariant` returned by `Node::Value`: either the empty value `0`
or a texture pointer. -/
inductive QVal where
  | empty
  | tex (t : RenderTexture)
deriving DecidableEq, BEq

/-- The mutable member state of a `MediaInput` node instance that
`Value` reads and writes: `decoder_`, `color_service_`, `pipeline_` and
`internal_tex_`. -/
structure MediaState where
  decoder : Option Decoder
  colorService : Option ColorService
  pipeline : Option Pipeline
  internalTex : Option TexRec
deriving DecidableEq, BEq

/-- Observable calls into external collaborators, in program order.
`texDestroy`/`texCreate`/`texUpload` are the internal texture's
`Destroy`/`Create`/`Upload` (a `Destroy` on a not-yet-created texture is
a no-op and emits nothing, matching the no-op-safe GL contract);
`fbAttach`/`fbBind`/`fbDetach`/`fbRelease` are the renderer framebuffer
operations and `texBind`/`texRelease` the internal texture bind pair
around the blit. -/
inductive Ev where
  | createDecoder (id : String)
  | setStream (s : Nat)
  | convertToFormat (fmt : PixelFormat)
  | cpuColorTransform
  | texDestroy
  | texCreate (w h : Nat) (fmt : PixelFormat)
  | texUpload
  | outputTexCreate
  | fbAttach
  | fbBind
  | texBind
  | blit
  | texRelease
  | fbDetach
  | fbRelease
deriving DecidableEq, BEq

/-- The environment of external collaborators consumed by
`MediaInput::Value`, modelled as pure functions:
`RendererProcessor::CurrentInstance()`, the footage input's resolved
value at a time (`footage_input_->get_value(time)`),
`Decoder::CreateFromID`, `Decoder::Retrieve`,
`PixelService::ConvertPixelFormat`, `ColorService::ConvertFrame` and the
pixel result of `olive::gl::Blit` through a pipeline. -/
structure Env where
  currentRenderer : Option RenderInstance
  footageAt : Rat → Option Footage
  createFromID : String → Option Decoder
  retrieve : Decoder → Rat → Option Frame
  convertPixelFormat : Frame → PixelFormat → Frame
  convertFrame : ColorService → Frame → Frame
  blitData : Pipeline → List Nat → List Nat

/-- Result of one `MediaInput::Value` call: the returned `QVariant`, the
updated member state and the trace of external calls. -/
structure EvalResult where
  value : QVal
  state : MediaState
  trace : List Ev
deriving DecidableEq, BEq

/-- Identifier of the node's `texture_output_` parameter; other
`NodeOutput*` pointers are modelled as other naturals. -/
def MediaInput.texOutId : Nat := 0

/-- Decoder acquisition step of `MediaInput::Value` (media.cpp lines
127-130): if `decoder_` is null, call `Decoder::CreateFromID` on the
footage's decoder kind; a null result aborts the evaluation. -/
def MediaInput.acquireDecoder (env : Env) (dec : Option Decoder) (fo : Footage) :
    Option Decoder × List Ev :=
  match dec with
  | some d => (some d, [])
  | none =>
    match env.createFromID fo.decoderID with
    | none => (none, [Ev.createDecoder fo.decoderID])
    | some d => (some d, [Ev.createDecoder fo.decoderID])

/-- Stream binding step of `MediaInput::Value` (media.cpp lines 132-135):
`set_stream(footage->stream(0))` is called only when the decoder has no
stream yet. -/
def MediaInput.bindStream (d : Decoder) (fo : Footage) : Decoder × List Ev :=
  match d.stream with
  | some _ => (d, [])
  | none => ({ d with stream := some fo.stream0 }, [Ev.setStream fo.stream0])

/-- The decoder as resolved and bound by one evaluation, when
acquisition succeeds (composition of `acquireDecoder` and
`bindStream`). -/
def MediaInput.resolvedDecoder (env : Env) (dec : Option Decoder) (fo : Footage) :
    Option Decoder :=
  match MediaInput.acquireDecoder env dec fo with
  | (none, _) => none
  | (some d, _) => some (MediaInput.bindStream d fo).1

/-- Color step of `MediaInput::Value` (media.cpp lines 149-168): in
online mode the frame is converted to `PIX_FMT_RGBA32F` and the color
transform runs on the CPU (`color_service_->ConvertFrame`); in offline
mode the frame passes through untouched.  The `alpha_is_associated`
conditionals in the source guard empty `FIXME` bodies (the flag is the
constant `false`), so they contribute nothing. -/
def MediaInput.colorPhase (env : Env) (mode : RenderMode) (cs : ColorService)
    (f : Frame) : Frame × List Ev :=
  if mode = RenderMode.online then
    let converted := env.convertPixelFormat f PixelFormat.rgba32F
    let transformed := env.convertFrame cs converted
    (transformed, [Ev.convertToFormat PixelFormat.rgba32F, Ev.cpuColorTransform])
  else
    (f, [])

/-- Internal-texture step of `MediaInput::Value` (media.cpp lines
173-188): destroy the texture when its width, height or format disagrees
with the frame, then create it from the frame data if it does not exist,
otherwise upload the frame data in place. -/
def MediaInput.texPhase (tex : Option TexRec) (f : Frame) : TexRec × List Ev :=
  let destroyed : Option TexRec × List Ev :=
    match tex with
    | none => (none, [])
    | some t =>
      if t.width ≠ f.width ∨ t.height ≠ f.height ∨ t.format ≠ f.format then
        (none, [Ev.texDestroy])
      else
        (some t, [])
  match destroyed with
  | (none, evs) =>
    ({ width := f.width, height := f.height, format := f.format, data := f.data },
      evs ++ [Ev.texCreate f.width f.height f.format])
  | (some t, evs) => ({ t with data := f.data }, evs ++ [Ev.texUpload])

/-- Pipeline selection of `MediaInput::Value` (media.cpp lines 203-222):
in offline mode the OCIO pipeline construction is commented out and
`ShaderGenerator::DefaultPipeline()` is assigned instead; in any other
mode the default pipeline is likewise assigned when none exists yet. -/
def MediaInput.pipelinePhase (mode : RenderMode) (pl : Option Pipeline) : Pipeline :=
  if mode = RenderMode.offline then
    match pl with
    | none => Pipeline.defaultPipeline
    | some p => p
  else
    match pl with
    | none => Pipeline.defaultPipeline
    | some p => p

/-- The fixed tail of external calls on the successful path (media.cpp
lines 192-241): output texture creation, framebuffer attach and bind,
internal texture bind, blit, and the paired releases before returning. -/
def MediaInput.blitTrace : List Ev :=
  [Ev.outputTexCreate, Ev.fbAttach, Ev.fbBind, Ev.texBind, Ev.blit,
   Ev.texRelease, Ev.fbDetach, Ev.fbRelease]

/-- `MediaInput::Value` (media.cpp lines 103-247), translated step by
step.  Every `return 0;` in the C++ becomes a `QVal.empty` result that
leaves the state as accumulated so far; the success path returns the
freshly created double-buffered output texture. -/
def MediaInput.Value (env : Env) (st : MediaState) (output : Nat) (time : Rat) :
    EvalResult :=
  if output = MediaInput.texOutId then
    match env.currentRenderer with
    | none => ⟨QVal.empty, st, []⟩
    | some renderer =>
      match env.footageAt time with
      | none => ⟨QVal.empty, st, []⟩
      | some footage =>
        match MediaInput.acquireDecoder env st.decoder footage with
        | (none, ev₁) => ⟨QVal.empty, st, ev₁⟩
        | (some d₀, ev₁) =>
          let bound := MediaInput.bindStream d₀ footage
          let d₁ := bound.1
          let st₁ := { st with decoder := some d₁ }
          match env.retrieve d₁ time with
          | none => ⟨QVal.empty, st₁, ev₁ ++ bound.2⟩
          | some frame₀ =>
            let cs := st₁.colorService.getD ⟨"srgb", "scene_linear"⟩
            let st₂ := { st₁ with colorService := some cs }
            let colored := MediaInput.colorPhase env renderer.mode cs frame₀
            let texed := MediaInput.texPhase st₂.internalTex colored.1
            let st₃ := { st₂ with internalTex := some texed.1 }
            let pl := MediaInput.pipelinePhase renderer.mode st₃.pipeline
            let st₄ := { st₃ with pipeline := some pl }
            let outputTexture : RenderTexture :=
              { width := renderer.width, height := renderer.height,
                format := renderer.format, doubleBuffer := true,
                content := env.blitData pl texed.1.data }
            ⟨QVal.tex outputTexture, st₄,
              ev₁ ++ bound.2 ++ colored.2 ++ texed.2 ++ MediaInput.blitTrace⟩
  else
    ⟨QVal.empty, st, []⟩

/-- A half-open time interval `[start, stop)` in exact rational time
(`TimeRange` from common/timerange.h; the field the source calls `end` is
named `stop` here because `end` is reserved in Lean). -/
structure TimeRange where
  start : Rat
  stop : Rat
deriving DecidableEq, BEq

/-- Modelled from the spec: the body of
`AudioRenderBackend::RangesOverlap` (declared at
audiorenderbackend.h line 39) is not in the excerpt.  Spec section 4.5:
true iff the half-open intervals intersect
(`a.start < b.end && b.start < a.end`). -/
def AudioRenderBackend.RangesOverlap (a b : TimeRange) : Bool :=
  decide (a.start < b.stop ∧ b.start < a.stop)

/-- Modelled from the spec: the body of
`AudioRenderBackend::CombineRange` (declared at audiorenderbackend.h
line 37) is not in the excerpt.  Spec section 4.5: the result is
`[min(a.start, b.start), max(a.end, b.end))`. -/
def AudioRenderBackend.CombineRange (a b : TimeRange) : TimeRange :=
  ⟨min a.start b.start, max a.stop b.stop⟩

/-- Two ranges are exactly adjacent when one ends where the other
starts. -/
def TimeRange.adjacent (a b : TimeRange) : Prop :=
  a.stop = b.start ∨ b.stop = a.start

/-- `outer` contains `inner` as half-open intervals. -/
def TimeRange.containsRange (outer inner : TimeRange) : Prop :=
  outer.start ≤ inner.start ∧ inner.stop ≤ outer.stop

/-- Audio rendering parameters (`AudioRenderingParams`): sample format,
sample rate and channel count, the parameters the spec names as feeding
the cache ID. -/
structure AudioRenderingParams where
  format : Nat
  sampleRate : Nat
  channelCount : Nat
deriving DecidableEq, BEq

/-- Modelled from the spec: the body of
`AudioRenderBackend::GenerateCacheIDInternal` (declared at
audiorenderbackend.h line 30) is not in the excerpt.  Spec section 4.4:
it derives a reproducible hash from all parameters that affect output
bytes (format, sample rate, channel count, and the identity of the node
graph feeding the backend).  The cryptographic hash is modelled as the
injective serialization of those parameters. -/
def AudioRenderBackend.GenerateCacheID (graphIdent : Nat)
    (p : AudioRenderingParams) : List Nat :=
  [p.format, p.sampleRate, p.channelCount, graphIdent]

/-- Render backend activity state (spec section 4.4: Stopped ⇄
Rendering). -/
inductive BackendState where
  | stopped
  | rendering
deriving DecidableEq, BEq

/-- The audio render backend state relevant to `SetParameters`: the
activity state, the current `params_` and the PCM buffer. -/
structure AudioBackend where
  state : BackendState
  params : AudioRenderingParams
  pcmData : List Nat
deriving DecidableEq, BEq

/-- Modelled from the spec: the body of
`AudioRenderBackend::SetParameters` (declared at audiorenderbackend.h
lines 13-19, documented there as "The Renderer must be stopped when
calling this function") is not in the excerpt.  Spec sections 4.4 and 7:
while Rendering the call is an illegal-state condition (the `Bool`
result is `false`) and the backend is left unchanged; when stopped it
replaces the parameters. -/
def AudioRenderBackend.SetParameters (b : AudioBackend)
    (p : AudioRenderingParams) : AudioBackend × Bool :=
  if b.state = BackendState.rendering then
    (b, false)
  else
    ({ b with params := p }, true)

/-- An environment in which every external resolution step fails:
no current renderer, no footage, no decoder, no frame. -/
def envAllMissing : Env where
  currentRenderer := none
  footageAt := fun _ => none
  createFromID := fun _ => none
  retrieve := fun _ _ => none
  convertPixelFormat := fun f fmt => { f with format := fmt }
  convertFrame := fun _ f => f
  blitData := fun _ d => d

/-- The member state of a freshly constructed `MediaInput` (the
constructor initializes `decoder_`, `color_service_` and `pipeline_` to
null and leaves `internal_tex_` uncreated). -/
def freshMediaState : MediaState where
  decoder := none
  colorService := none
  pipeline := none
  internalTex := none

/-- C3: `RangesOverlap` is the half-open intersection test, and on
overlapping or exactly adjacent ranges `CombineRange` returns
`[min(starts), max(ends))`, which contains both inputs and is no larger
than that bound. -/
theorem rangesOverlap_combineRange_spec (a b : TimeRange) :
    (AudioRenderBackend.RangesOverlap a b = true ↔
      (a.start < b.stop ∧ b.start < a.stop)) ∧
    (AudioRenderBackend.RangesOverlap a b = true ∨ TimeRange.adjacent a b →
      AudioRenderBackend.CombineRange a b =
          ⟨min a.start b.start, max a.stop b.stop⟩ ∧
        TimeRange.containsRange (AudioRenderBackend.CombineRange a b) a ∧
        TimeRange.containsRange (AudioRenderBackend.CombineRange a b) b ∧
        TimeRange.containsRange ⟨min a.start b.start, max a.stop b.stop⟩
          (AudioRenderBackend.CombineRange a b)) := by
  refine ⟨by simp [AudioRenderBackend.RangesOverlap], fun _ => ⟨rfl, ?_, ?_, ?_⟩⟩ <;>
    simp [AudioRenderBackend.CombineRange, TimeRange.containsRange]

/-- Witness for `rangesOverlap_combineRange_spec` at the overlapping
ranges `[0,2)` and `[1,3)`. -/
theorem rangesOverlap_combineRange_spec_witness :
    AudioRenderBackend.CombineRange ⟨0, 2⟩ ⟨1, 3⟩ =
        ⟨min (0 : Rat) 1, max (2 : Rat) 3⟩ ∧
      TimeRange.containsRange (AudioRenderBackend.CombineRange ⟨0, 2⟩ ⟨1, 3⟩) ⟨0, 2⟩ ∧
      TimeRange.containsRange (AudioRenderBackend.CombineRange ⟨0, 2⟩ ⟨1, 3⟩) ⟨1, 3⟩ ∧
      TimeRange.containsRange ⟨min (0 : Rat) 1, max (2 : Rat) 3⟩
        (AudioRenderBackend.CombineRange ⟨0, 2⟩ ⟨1, 3⟩) :=
  (rangesOverlap_combineRange_spec ⟨0, 2⟩ ⟨1, 3⟩).2 (Or.inl (by decide))

/-- C4: cache ID generation is deterministic — equal graph identity and
equal parameters always produce the same ID — and changing the sample
rate always changes the ID. -/
theorem generateCacheID_deterministic (g g' : Nat)
    (p q : AudioRenderingParams) :
    (g = g' → p = q →
      AudioRenderBackend.GenerateCacheID g p =
        AudioRenderBackend.GenerateCacheID g' q) ∧
    (p.sampleRate ≠ q.sampleRate →
      AudioRenderBackend.GenerateCacheID g p ≠
        AudioRenderBackend.GenerateCacheID g' q) := by
  refine ⟨fun hg hp => by rw [hg, hp], fun h hEq => h ?_⟩
  simp [AudioRenderBackend.GenerateCacheID] at hEq
  exact hEq.2.1

/-- Witness for `generateCacheID_deterministic`: identical parameters at
48 kHz give equal IDs; moving to 44.1 kHz changes the ID. -/
theorem generateCacheID_deterministic_witness :
    AudioRenderBackend.GenerateCacheID 7 ⟨1, 48000, 2⟩ =
        AudioRenderBackend.GenerateCacheID 7 ⟨1, 48000, 2⟩ ∧
      AudioRenderBackend.GenerateCacheID 7 ⟨1, 48000, 2⟩ ≠
        AudioRenderBackend.GenerateCacheID 7 ⟨1, 44100, 2⟩ :=
  ⟨(generateCacheID_deterministic 7 7 ⟨1, 48000, 2⟩ ⟨1, 48000, 2⟩).1 rfl rfl,
   (generateCacheID_deterministic 7 7 ⟨1, 48000, 2⟩ ⟨1, 44100, 2⟩).2 (by decide)⟩

/-- C5: calling `SetParameters` while the backend is Rendering fails
(illegal state, result flag `false`) and leaves the backend — in
particular its previously set parameters — unchanged. -/
theorem setParameters_while_rendering (b : AudioBackend)
    (p : AudioRenderingParams) (h : b.state = BackendState.rendering) :
    AudioRenderBackend.SetParameters b p = (b, false) ∧
      (AudioRenderBackend.SetParameters b p).1.params = b.params := by
  simp [AudioRenderBackend.SetParameters, h]

/-- Witness for `setParameters_while_rendering` on a concrete rendering
backend. -/
theorem setParameters_while_rendering_witness :
    AudioRenderBackend.SetParameters
        ⟨BackendState.rendering, ⟨1, 48000, 2⟩, [9, 9]⟩ ⟨2, 44100, 6⟩ =
        (⟨BackendState.rendering, ⟨1, 48000, 2⟩, [9, 9]⟩, false) ∧
      (AudioRenderBackend.SetParameters
        ⟨BackendState.rendering, ⟨1, 48000, 2⟩, [9, 9]⟩ ⟨2, 44100, 6⟩).1.params =
        ⟨1, 48000, 2⟩ :=
  setParameters_while_rendering ⟨BackendState.rendering, ⟨1, 48000, 2⟩, [9, 9]⟩
    ⟨2, 44100, 6⟩ rfl

/-- C10: requesting any output parameter other than the texture output
from `MediaInput::Value` yields the empty value `0`, at every time. -/
theorem mediaInput_other_output_empty (env : Env) (st : MediaState)
    (output : Nat) (t : Rat) (h : output ≠ MediaInput.texOutId) :
    (MediaInput.Value env st output t).value = QVal.empty := by
  simp [MediaInput.Value, h]

/-- Witness for `mediaInput_other_output_empty` at output id 1
(a non-texture output) and time 0. -/
theorem mediaInput_other_output_empty_witness :
    (MediaInput.Value envAllMissing freshMediaState 1 0).value = QVal.empty :=
  mediaInput_other_output_empty envAllMissing freshMediaState 1 0 (by decide)

/-- C1: every failing resolution step of `MediaInput::Value` on the
texture output — no current renderer instance, no footage resolved from
the footage input, failed decoder instantiation, or no frame returned by
the decoder — makes `Value` return the empty value `0` (the embedding is
a total function, so no exception or crash is possible). -/
theorem mediaInput_failure_returns_empty (env : Env) (st : MediaState) (t : Rat)
    (h : env.currentRenderer = none
       ∨ env.footageAt t = none
       ∨ (∃ fo, env.footageAt t = some fo ∧
            MediaInput.resolvedDecoder env st.decoder fo = none)
       ∨ (∃ fo d, env.footageAt t = some fo ∧
            MediaInput.resolvedDecoder env st.decoder fo = some d ∧
            env.retrieve d t = none)) :
    (MediaInput.Value env st MediaInput.texOutId t).value = QVal.empty := by
  rcases h with h | h | ⟨fo, hf, hd⟩ | ⟨fo, d, hf, hd, hr⟩
  · simp [MediaInput.Value, h]
  · cases hr : env.currentRenderer <;> simp [MediaInput.Value, h, hr]
  · cases hr : env.currentRenderer with
    | none => simp [MediaInput.Value, hr]
    | some r =>
      rcases hAcq : MediaInput.acquireDecoder env st.decoder fo with ⟨d?, evs⟩
      cases d? with
      | none => simp [MediaInput.Value, hr, hf, hAcq]
      | some d₀ => simp [MediaInput.resolvedDecoder, hAcq] at hd
  · cases hren : env.currentRenderer with
    | none => simp [MediaInput.Value, hren]
    | some r =>
      rcases hAcq : MediaInput.acquireDecoder env st.decoder fo with ⟨d?, evs⟩
      cases d? with
      | none => simp [MediaInput.resolvedDecoder, hAcq] at hd
      | some d₀ =>
        have hd' : (MediaInput.bindStream d₀ fo).1 = d := by
          simpa [MediaInput.resolvedDecoder, hAcq] using hd
        simp [MediaInput.Value, hren, hf, hAcq, hd', hr]

/-- Witness for `mediaInput_failure_returns_empty` in the environment
with no current renderer. -/
theorem mediaInput_failure_returns_empty_witness :
    (MediaInput.Value envAllMissing freshMediaState MediaInput.texOutId 0).value =
      QVal.empty :=
  mediaInput_failure_returns_empty envAllMissing freshMediaState 0 (Or.inl rfl)

/-- Number of occurrences of an event in a trace. -/
def countEv (tr : List Ev) (e : Ev) : Nat := tr.countP (fun x => x = e)

/-- When `decoder_` already exists, acquisition neither calls
`Decoder::CreateFromID` nor changes the decoder. -/
theorem MediaInput.acquireDecoder_some (env : Env) (d : Decoder) (fo : Footage) :
    MediaInput.acquireDecoder env (some d) fo = (some d, []) := rfl

/-- When the decoder already has a stream, `set_stream` is not called. -/
theorem MediaInput.bindStream_of_bound (d : Decoder) (fo : Footage) (s : Nat)
    (hs : d.stream = some s) : MediaInput.bindStream d fo = (d, []) := by
  simp [MediaInput.bindStream, hs]

/-- The decoder-acquisition step emits at most the `CreateFromID`
call. -/
theorem MediaInput.acquireDecoder_trace (env : Env) (dec : Option Decoder)
    (fo : Footage) :
    (MediaInput.acquireDecoder env dec fo).2 = [] ∨
      (MediaInput.acquireDecoder env dec fo).2 = [Ev.createDecoder fo.decoderID] := by
  rcases dec with _ | d
  · rcases h : env.createFromID fo.decoderID with _ | d <;>
      simp [MediaInput.acquireDecoder, h]
  · simp [MediaInput.acquireDecoder]

/-- The stream-binding step emits at most the `set_stream` call. -/
theorem MediaInput.bindStream_trace (d : Decoder) (fo : Footage) :
    (MediaInput.bindStream d fo).2 = [] ∨
      (MediaInput.bindStream d fo).2 = [Ev.setStream fo.stream0] := by
  rcases h : d.stream with _ | s <;> simp [MediaInput.bindStream, h]

/-- The color step emits either nothing (offline) or exactly the
32F conversion followed by the CPU color transform (online). -/
theorem MediaInput.colorPhase_trace (env : Env) (mode : RenderMode)
    (cs : ColorService) (f : Frame) :
    (MediaInput.colorPhase env mode cs f).2 = [] ∨
      (MediaInput.colorPhase env mode cs f).2 =
        [Ev.convertToFormat PixelFormat.rgba32F, Ev.cpuColorTransform] := by
  by_cases h : mode = RenderMode.online <;> simp [MediaInput.colorPhase, h]

/-- The internal-texture step emits exactly one of: a create, a destroy
followed by a create, or an in-place upload. -/
theorem MediaInput.texPhase_trace (tex : Option TexRec) (f : Frame) :
    (MediaInput.texPhase tex f).2 = [Ev.texCreate f.width f.height f.format] ∨
      (MediaInput.texPhase tex f).2 =
        [Ev.texDestroy, Ev.texCreate f.width f.height f.format] ∨
      (MediaInput.texPhase tex f).2 = [Ev.texUpload] := by
  rcases tex with _ | t
  · simp [MediaInput.texPhase]
  · by_cases h : t.width ≠ f.width ∨ t.height ≠ f.height ∨ t.format ≠ f.format <;>
      simp [MediaInput.texPhase, h]

/-- The result of a fully successful `MediaInput::Value` evaluation,
expressed from the resolution ingredients: texture value built from the
renderer's output parameters, all four lazily initialized members now
set, and the full external-call trace. -/
def MediaInput.successResult (env : Env) (st : MediaState) (r : RenderInstance)
    (fo : Footage) (d₀ : Decoder) (ev₁ : List Ev) (fr : Frame) : EvalResult :=
  let bound := MediaInput.bindStream d₀ fo
  let cs := st.colorService.getD ⟨"srgb", "scene_linear"⟩
  let colored := MediaInput.colorPhase env r.mode cs fr
  let texed := MediaInput.texPhase st.internalTex colored.1
  let pl := MediaInput.pipelinePhase r.mode st.pipeline
  ⟨QVal.tex ⟨r.width, r.height, r.format, true, env.blitData pl texed.1.data⟩,
    ⟨some bound.1, some cs, some pl, some texed.1⟩,
    ev₁ ++ bound.2 ++ colored.2 ++ texed.2 ++ MediaInput.blitTrace⟩

/-- Exhaustive case analysis of `MediaInput::Value` on the texture
output: it either fails before decoding (empty value, at most the
`CreateFromID` trace), fails at frame retrieval (empty value, decoder
now stored and bound), or succeeds with the full `successResult`. -/
theorem MediaInput.value_shape (env : Env) (st : MediaState) (t : Rat) :
    MediaInput.Value env st MediaInput.texOutId t = ⟨QVal.empty, st, []⟩ ∨
    (∃ fo ev₁, env.footageAt t = some fo ∧
      MediaInput.acquireDecoder env st.decoder fo = (none, ev₁) ∧
      MediaInput.Value env st MediaInput.texOutId t = ⟨QVal.empty, st, ev₁⟩) ∨
    (∃ r fo d₀ ev₁, env.currentRenderer = some r ∧ env.footageAt t = some fo ∧
      MediaInput.acquireDecoder env st.decoder fo = (some d₀, ev₁) ∧
      env.retrieve (MediaInput.bindStream d₀ fo).1 t = none ∧
      MediaInput.Value env st MediaInput.texOutId t =
        ⟨QVal.empty, { st with decoder := some (MediaInput.bindStream d₀ fo).1 },
          ev₁ ++ (MediaInput.bindStream d₀ fo).2⟩) ∨
    (∃ r fo d₀ ev₁ fr, env.currentRenderer = some r ∧ env.footageAt t = some fo ∧
      MediaInput.acquireDecoder env st.decoder fo = (some d₀, ev₁) ∧
      env.retrieve (MediaInput.bindStream d₀ fo).1 t = some fr ∧
      MediaInput.Value env st MediaInput.texOutId t =
        MediaInput.successResult env st r fo d₀ ev₁ fr) := by
  rcases hr : env.currentRenderer with _ | r
  · exact Or.inl (by simp [MediaInput.Value, hr])
  rcases hf : env.footageAt t with _ | fo
  · exact Or.inl (by simp [MediaInput.Value, hr, hf])
  rcases hAcq : MediaInput.acquireDecoder env st.decoder fo with ⟨d?, ev₁⟩
  rcases d? with _ | d₀
  · exact Or.inr (Or.inl ⟨fo, ev₁, rfl, hAcq, by simp [MediaInput.Value, hr, hf, hAcq]⟩)
  rcases hret : env.retrieve (MediaInput.bindStream d₀ fo).1 t with _ | fr
  · exact Or.inr (Or.inr (Or.inl ⟨r, fo, d₀, ev₁, rfl, rfl, hAcq, hret,
      by simp [MediaInput.Value, hr, hf, hAcq, hret]⟩))
  · exact Or.inr (Or.inr (Or.inr ⟨r, fo, d₀, ev₁, fr, rfl, rfl, hAcq, hret,
      by simp [MediaInput.Value, MediaInput.successResult, hr, hf, hAcq, hret]⟩))

/-- C7: the internal texture is destroyed and recreated only when the
incoming frame's width, height or pixel format differs from the current
texture; when all three match an already-created texture, the frame data
is uploaded in place and neither a destroy nor a create occurs. -/
theorem mediaInput_internal_texture_reuse (t : TexRec) (f : Frame) :
    (t.width = f.width → t.height = f.height → t.format = f.format →
      MediaInput.texPhase (some t) f = ({ t with data := f.data }, [Ev.texUpload])) ∧
    (t.width ≠ f.width ∨ t.height ≠ f.height ∨ t.format ≠ f.format →
      MediaInput.texPhase (some t) f =
        (⟨f.width, f.height, f.format, f.data⟩,
          [Ev.texDestroy, Ev.texCreate f.width f.height f.format])) := by
  constructor
  · intro h1 h2 h3
    simp [MediaInput.texPhase, h1, h2, h3]
  · intro h
    rcases h with h | h | h <;> simp [MediaInput.texPhase, h]

/-- Witness for `mediaInput_internal_texture_reuse`: a matching 2x2
RGBA8 frame is uploaded in place; a 3x2 frame forces destroy and
recreate. -/
theorem mediaInput_internal_texture_reuse_witness :
    MediaInput.texPhase (some ⟨2, 2, PixelFormat.rgba8, [0]⟩)
        ⟨2, 2, PixelFormat.rgba8, [1, 2]⟩ =
        (⟨2, 2, PixelFormat.rgba8, [1, 2]⟩, [Ev.texUpload]) ∧
      MediaInput.texPhase (some ⟨2, 2, PixelFormat.rgba8, [0]⟩)
        ⟨3, 2, PixelFormat.rgba8, [5]⟩ =
        (⟨3, 2, PixelFormat.rgba8, [5]⟩,
          [Ev.texDestroy, Ev.texCreate 3 2 PixelFormat.rgba8]) :=
  ⟨(mediaInput_internal_texture_reuse ⟨2, 2, PixelFormat.rgba8, [0]⟩
      ⟨2, 2, PixelFormat.rgba8, [1, 2]⟩).1 rfl rfl rfl,
   (mediaInput_internal_texture_reuse ⟨2, 2, PixelFormat.rgba8, [0]⟩
      ⟨3, 2, PixelFormat.rgba8, [5]⟩).2 (Or.inl (by decide))⟩

/-- C8: once the node's decoder exists and is bound to a stream, no
evaluation rebinds it: the stored decoder is unchanged and the trace
contains neither a `set_stream` nor a `CreateFromID` call. -/
theorem mediaInput_stream_bound_once (env : Env) (st : MediaState)
    (output : Nat) (t : Rat) (d : Decoder) (s : Nat)
    (hd : st.decoder = some d) (hs : d.stream = some s) :
    (MediaInput.Value env st output t).state.decoder = some d ∧
      (∀ s', Ev.setStream s' ∉ (MediaInput.Value env st output t).trace) ∧
      (∀ i, Ev.createDecoder i ∉ (MediaInput.Value env st output t).trace) := by
  by_cases ho : output = MediaInput.texOutId
  · subst ho
    rcases MediaInput.value_shape env st t with hv | ⟨fo, ev₁, hf, hAcq, hv⟩ |
        ⟨r, fo, d₀, ev₁, hr, hf, hAcq, hret, hv⟩ |
        ⟨r, fo, d₀, ev₁, fr, hr, hf, hAcq, hret, hv⟩
    · simp [hv, hd]
    · rw [hd, MediaInput.acquireDecoder_some] at hAcq
      simp at hAcq
    · rw [hd, MediaInput.acquireDecoder_some] at hAcq
      injection hAcq with hd₀ hev₁
      obtain rfl : d = d₀ := Option.some.inj hd₀
      subst hev₁
      simp [hv, MediaInput.bindStream_of_bound d fo s hs]
    · rw [hd, MediaInput.acquireDecoder_some] at hAcq
      injection hAcq with hd₀ hev₁
      obtain rfl : d = d₀ := Option.some.inj hd₀
      subst hev₁
      rw [hv]
      refine ⟨?_, ?_, ?_⟩
      · simp [MediaInput.successResult, MediaInput.bindStream_of_bound d fo s hs]
      · intro s'
        rcases MediaInput.colorPhase_trace env r.mode
            (st.colorService.getD ⟨"srgb", "scene_linear"⟩) fr with hc | hc <;>
          rcases MediaInput.texPhase_trace st.internalTex
              (MediaInput.colorPhase env r.mode
                (st.colorService.getD ⟨"srgb", "scene_linear"⟩) fr).1 with ht | ht | ht <;>
          simp [MediaInput.successResult, MediaInput.bindStream_of_bound d fo s hs,
            hc, ht, MediaInput.blitTrace]
      · intro i
        rcases MediaInput.colorPhase_trace env r.mode
            (st.colorService.getD ⟨"srgb", "scene_linear"⟩) fr with hc | hc <;>
          rcases MediaInput.texPhase_trace st.internalTex
              (MediaInput.colorPhase env r.mode
                (st.colorService.getD ⟨"srgb", "scene_linear"⟩) fr).1 with ht | ht | ht <;>
          simp [MediaInput.successResult, MediaInput.bindStream_of_bound d fo s hs,
            hc, ht, MediaInput.blitTrace]
  · simp [MediaInput.Value, ho, hd]

/-- A `MediaInput` state whose decoder already exists and is bound to
stream 0. -/
def boundMediaState : MediaState where
  decoder := some ⟨some 0⟩
  colorService := none
  pipeline := none
  internalTex := none

/-- Witness for `mediaInput_stream_bound_once` on a state with a bound
decoder: the decoder survives evaluation unchanged and no rebinding or
re-creation call appears in the trace. -/
theorem mediaInput_stream_bound_once_witness :
    (MediaInput.Value envAllMissing boundMediaState MediaInput.texOutId 0).state.decoder =
        some ⟨some 0⟩ ∧
      Ev.setStream 3 ∉
        (MediaInput.Value envAllMissing boundMediaState MediaInput.texOutId 0).trace ∧
      Ev.createDecoder "ffmpeg" ∉
        (MediaInput.Value envAllMissing boundMediaState MediaInput.texOutId 0).trace :=
  ⟨(mediaInput_stream_bound_once envAllMissing boundMediaState MediaInput.texOutId 0
      ⟨some 0⟩ 0 rfl rfl).1,
   (mediaInput_stream_bound_once envAllMissing boundMediaState MediaInput.texOutId 0
      ⟨some 0⟩ 0 rfl rfl).2.1 3,
   (mediaInput_stream_bound_once envAllMissing boundMediaState MediaInput.texOutId 0
      ⟨some 0⟩ 0 rfl rfl).2.2 "ffmpeg"⟩

/-- C9: on every exit path of `MediaInput::Value` the transient binds
are balanced — the internal texture bind count equals its release count,
the framebuffer bind count equals its release count, and the framebuffer
attach count equals its detach count.  Failure paths all return before
any bind is taken; the success path releases all three before
returning. -/
theorem mediaInput_binds_released (env : Env) (st : MediaState)
    (output : Nat) (t : Rat) :
    countEv (MediaInput.Value env st output t).trace Ev.texBind =
        countEv (MediaInput.Value env st output t).trace Ev.texRelease ∧
      countEv (MediaInput.Value env st output t).trace Ev.fbBind =
        countEv (MediaInput.Value env st output t).trace Ev.fbRelease ∧
      countEv (MediaInput.Value env st output t).trace Ev.fbAttach =
        countEv (MediaInput.Value env st output t).trace Ev.fbDetach := by
  by_cases ho : output = MediaInput.texOutId
  · subst ho
    rcases MediaInput.value_shape env st t with hv | ⟨fo, ev₁, hf, hAcq, hv⟩ |
        ⟨r, fo, d₀, ev₁, hr, hf, hAcq, hret, hv⟩ |
        ⟨r, fo, d₀, ev₁, fr, hr, hf, hAcq, hret, hv⟩
    · simp [hv, countEv]
    · rcases MediaInput.acquireDecoder_trace env st.decoder fo with ha | ha <;>
        rw [hAcq] at ha <;> subst ha <;> simp [hv, countEv]
    · rcases MediaInput.acquireDecoder_trace env st.decoder fo with ha | ha <;>
        rw [hAcq] at ha <;> subst ha <;>
        rcases MediaInput.bindStream_trace d₀ fo with hb | hb <;>
        simp [hv, countEv, hb]
    · rcases MediaInput.acquireDecoder_trace env st.decoder fo with ha | ha <;>
        rw [hAcq] at ha <;> subst ha <;>
        rcases MediaInput.bindStream_trace d₀ fo with hb | hb <;>
        rcases MediaInput.colorPhase_trace env r.mode
            (st.colorService.getD ⟨"srgb", "scene_linear"⟩) fr with hc | hc <;>
        rcases MediaInput.texPhase_trace st.internalTex
            (MediaInput.colorPhase env r.mode
              (st.colorService.getD ⟨"srgb", "scene_linear"⟩) fr).1 with ht | ht | ht <;>
        simp [hv, MediaInput.successResult, countEv, hb, hc, ht, MediaInput.blitTrace,
          List.countP_append]
  · simp [MediaInput.Value, ho, countEv]

/-- After the binding step the decoder always has a stream. -/
theorem MediaInput.bindStream_stream_isSome (d : Decoder) (fo : Footage) :
    ∃ s, (MediaInput.bindStream d fo).1.stream = some s := by
  rcases h : d.stream with _ | s
  · exact ⟨fo.stream0, by simp [MediaInput.bindStream, h]⟩
  · exact ⟨s, by simp [MediaInput.bindStream, h]⟩

/-- When the existing texture matches the frame's dimensions and format,
the texture step is a pure in-place upload. -/
theorem MediaInput.texPhase_of_match (t : TexRec) (f : Frame)
    (h1 : t.width = f.width) (h2 : t.height = f.height)
    (h3 : t.format = f.format) :
    MediaInput.texPhase (some t) f = ({ t with data := f.data }, [Ev.texUpload]) := by
  simp [MediaInput.texPhase, h1, h2, h3]

/-- The texture kept after the texture step always carries the frame's
dimensions, format and data. -/
theorem MediaInput.texPhase_fields (tex : Option TexRec) (f : Frame) :
    (MediaInput.texPhase tex f).1.width = f.width ∧
      (MediaInput.texPhase tex f).1.height = f.height ∧
      (MediaInput.texPhase tex f).1.format = f.format ∧
      (MediaInput.texPhase tex f).1.data = f.data := by
  rcases tex with _ | t
  · simp [MediaInput.texPhase]
  · by_cases h : t.width ≠ f.width ∨ t.height ≠ f.height ∨ t.format ≠ f.format
    · simp [MediaInput.texPhase, h]
    · push_neg at h
      simp [MediaInput.texPhase_of_match t f h.1 h.2.1 h.2.2, h.1, h.2.1, h.2.2]

/-- Selecting a pipeline when one already exists returns it unchanged in
both render modes. -/
theorem MediaInput.pipelinePhase_some (mode : RenderMode) (p : Pipeline) :
    MediaInput.pipelinePhase mode (some p) = p := by
  by_cases h : mode = RenderMode.offline <;> simp [MediaInput.pipelinePhase, h]

/-- C6: evaluation is replay-stable — evaluating the node a second time
at the same time with the same environment (unchanged upstream inputs,
no cache invalidation), starting from the state the first evaluation
left behind, produces a bit-identical output value. -/
theorem mediaInput_value_pure (env : Env) (st : MediaState) (output : Nat)
    (t : Rat) :
    (MediaInput.Value env (MediaInput.Value env st output t).state output t).value =
      (MediaInput.Value env st output t).value := by
  by_cases ho : output = MediaInput.texOutId
  · subst ho
    rcases MediaInput.value_shape env st t with hv | ⟨fo, ev₁, hf, hAcq, hv⟩ |
        ⟨r, fo, d₀, ev₁, hr, hf, hAcq, hret, hv⟩ |
        ⟨r, fo, d₀, ev₁, fr, hr, hf, hAcq, hret, hv⟩
    · simp [hv]
    · simp [hv]
    · obtain ⟨s, hs⟩ := MediaInput.bindStream_stream_isSome d₀ fo
      rw [hv]
      simp [MediaInput.Value, hr, hf, MediaInput.acquireDecoder_some,
        MediaInput.bindStream_of_bound (MediaInput.bindStream d₀ fo).1 fo s hs, hret]
    · obtain ⟨s, hs⟩ := MediaInput.bindStream_stream_isSome d₀ fo
      have hfields := MediaInput.texPhase_fields st.internalTex
        (MediaInput.colorPhase env r.mode
          (st.colorService.getD ⟨"srgb", "scene_linear"⟩) fr).1
      have hup := MediaInput.texPhase_of_match
        (MediaInput.texPhase st.internalTex
          (MediaInput.colorPhase env r.mode
            (st.colorService.getD ⟨"srgb", "scene_linear"⟩) fr).1).1
        (MediaInput.colorPhase env r.mode
          (st.colorService.getD ⟨"srgb", "scene_linear"⟩) fr).1
        hfields.1 hfields.2.1 hfields.2.2.1
      rw [hv]
      simp [MediaInput.successResult, MediaInput.Value, hr, hf,
        MediaInput.acquireDecoder_some,
        MediaInput.bindStream_of_bound (MediaInput.bindStream d₀ fo).1 fo s hs,
        hret, hup, MediaInput.pipelinePhase_some, hfields.2.2.2]
  · simp [MediaInput.Value, ho]

/-- Pipeline selection always yields the stored pipeline, defaulting to
`ShaderGenerator::DefaultPipeline()` when none exists — identically in
both render modes, since the OCIO branch of the source is commented
out. -/
theorem MediaInput.pipelinePhase_eq_getD (mode : RenderMode)
    (pl : Option Pipeline) :
    MediaInput.pipelinePhase mode pl = pl.getD Pipeline.defaultPipeline := by
  rcases pl with _ | p <;> by_cases h : mode = RenderMode.offline <;>
    simp [MediaInput.pipelinePhase, h]

/-- An environment whose renderer runs in offline mode and in which
footage, decoder and frame all resolve, for exercising the successful
evaluation path. -/
def envOffline : Env where
  currentRenderer := some ⟨RenderMode.offline, 4, 4, PixelFormat.rgba8⟩
  footageAt := fun _ => some ⟨"ffmpeg", 0⟩
  createFromID := fun _ => some ⟨none⟩
  retrieve := fun _ _ => some ⟨2, 2, PixelFormat.rgba8, [7, 7, 7, 7]⟩
  convertPixelFormat := fun f fmt => { f with format := fmt }
  convertFrame := fun _ f => f
  blitData := fun _ d => d

/-- Counterexample to C2 as stated: in offline mode, at this concrete
input the evaluation succeeds, yet the pipeline the blit uses (and the
node stores) is `ShaderGenerator::DefaultPipeline()`, which applies no
color transform — the OCIO GPU-transform pipeline of the claim is
commented out in the source, so no color transform happens at all in
offline mode. -/
theorem mediaInput_offline_gpu_transform_counterexample :
    (MediaInput.Value envOffline freshMediaState MediaInput.texOutId 0).value ≠
        QVal.empty ∧
      (MediaInput.Value envOffline freshMediaState MediaInput.texOutId 0).state.pipeline =
        some Pipeline.defaultPipeline ∧
      Pipeline.defaultPipeline.appliesColorTransform = false := by
  refine ⟨?_, ?_, rfl⟩ <;> decide

/-- C2 (amended): on a successful evaluation, in online mode the frame
is converted to RGBA32F and color-transformed on the CPU strictly before
the internal-texture upload; in offline mode the frame reaches the
internal texture raw (no conversion, no CPU transform, texture holds the
decoded frame's format and data) and the blit uses the stored pipeline
or, when none exists, the default pipeline — which performs no color
transform, the OCIO GPU path being commented out. -/
theorem mediaInput_color_paths (env : Env) (st : MediaState) (t : Rat)
    (r : RenderInstance) (fo : Footage) (d₀ : Decoder) (ev₁ : List Ev)
    (fr : Frame)
    (hr : env.currentRenderer = some r) (hf : env.footageAt t = some fo)
    (hAcq : MediaInput.acquireDecoder env st.decoder fo = (some d₀, ev₁))
    (hret : env.retrieve (MediaInput.bindStream d₀ fo).1 t = some fr) :
    (r.mode = RenderMode.online →
      ∃ pre post,
        (MediaInput.Value env st MediaInput.texOutId t).trace =
            pre ++ [Ev.convertToFormat PixelFormat.rgba32F, Ev.cpuColorTransform] ++
              post ∧
          Ev.texUpload ∉ pre ∧ (∀ w h fm, Ev.texCreate w h fm ∉ pre) ∧
          (Ev.texUpload ∈ post ∨ ∃ w h fm, Ev.texCreate w h fm ∈ post)) ∧
    (r.mode = RenderMode.offline →
      (∀ fmt, Ev.convertToFormat fmt ∉
          (MediaInput.Value env st MediaInput.texOutId t).trace) ∧
        Ev.cpuColorTransform ∉
          (MediaInput.Value env st MediaInput.texOutId t).trace ∧
        (∃ tx, (MediaInput.Value env st MediaInput.texOutId t).state.internalTex =
            some tx ∧ tx.format = fr.format ∧ tx.data = fr.data) ∧
        (MediaInput.Value env st MediaInput.texOutId t).state.pipeline =
          some (st.pipeline.getD Pipeline.defaultPipeline)) := by
  have hval : MediaInput.Value env st MediaInput.texOutId t =
      MediaInput.successResult env st r fo d₀ ev₁ fr := by
    simp [MediaInput.Value, MediaInput.successResult, hr, hf, hAcq, hret]
  constructor
  · intro hm
    rw [hval]
    have hc2 : (MediaInput.colorPhase env r.mode
        (st.colorService.getD ⟨"srgb", "scene_linear"⟩) fr).2 =
        [Ev.convertToFormat PixelFormat.rgba32F, Ev.cpuColorTransform] := by
      simp [MediaInput.colorPhase, hm]
    refine ⟨ev₁ ++ (MediaInput.bindStream d₀ fo).2,
      (MediaInput.texPhase st.internalTex
        (MediaInput.colorPhase env r.mode
          (st.colorService.getD ⟨"srgb", "scene_linear"⟩) fr).1).2 ++
        MediaInput.blitTrace, ?_, ?_, ?_, ?_⟩
    · simp [MediaInput.successResult, hc2, List.append_assoc]
    · rcases MediaInput.acquireDecoder_trace env st.decoder fo with ha | ha <;>
        rw [hAcq] at ha <;> subst ha <;>
        rcases MediaInput.bindStream_trace d₀ fo with hb | hb <;> simp [hb]
    · intro w h fm
      rcases MediaInput.acquireDecoder_trace env st.decoder fo with ha | ha <;>
        rw [hAcq] at ha <;> subst ha <;>
        rcases MediaInput.bindStream_trace d₀ fo with hb | hb <;> simp [hb]
    · rcases MediaInput.texPhase_trace st.internalTex
          (MediaInput.colorPhase env r.mode
            (st.colorService.getD ⟨"srgb", "scene_linear"⟩) fr).1 with ht | ht | ht
      · exact Or.inr ⟨(MediaInput.colorPhase env r.mode
            (st.colorService.getD ⟨"srgb", "scene_linear"⟩) fr).1.width,
          (MediaInput.colorPhase env r.mode
            (st.colorService.getD ⟨"srgb", "scene_linear"⟩) fr).1.height,
          (MediaInput.colorPhase env r.mode
            (st.colorService.getD ⟨"srgb", "scene_linear"⟩) fr).1.format,
          by simp [ht]⟩
      · exact Or.inr ⟨(MediaInput.colorPhase env r.mode
            (st.colorService.getD ⟨"srgb", "scene_linear"⟩) fr).1.width,
          (MediaInput.colorPhase env r.mode
            (st.colorService.getD ⟨"srgb", "scene_linear"⟩) fr).1.height,
          (MediaInput.colorPhase env r.mode
            (st.colorService.getD ⟨"srgb", "scene_linear"⟩) fr).1.format,
          by simp [ht]⟩
      · exact Or.inl (by simp [ht])
  · intro hm
    rw [hval]
    have hc : MediaInput.colorPhase env r.mode
        (st.colorService.getD ⟨"srgb", "scene_linear"⟩) fr = (fr, []) := by
      simp [MediaInput.colorPhase, hm]
    have hfields := MediaInput.texPhase_fields st.internalTex fr
    refine ⟨?_, ?_, ?_, ?_⟩
    · intro fmt
      rcases MediaInput.acquireDecoder_trace env st.decoder fo with ha | ha <;>
        rw [hAcq] at ha <;> subst ha <;>
        rcases MediaInput.bindStream_trace d₀ fo with hb | hb <;>
        rcases MediaInput.texPhase_trace st.internalTex fr with ht | ht | ht <;>
        simp [MediaInput.successResult, hc, hb, ht, MediaInput.blitTrace]
    · rcases MediaInput.acquireDecoder_trace env st.decoder fo with ha | ha <;>
        rw [hAcq] at ha <;> subst ha <;>
        rcases MediaInput.bindStream_trace d₀ fo with hb | hb <;>
        rcases MediaInput.texPhase_trace st.internalTex fr with ht | ht | ht <;>
        simp [MediaInput.successResult, hc, hb, ht, MediaInput.blitTrace]
    · exact ⟨(MediaInput.texPhase st.internalTex fr).1,
        by simp [MediaInput.successResult, hc], hfields.2.2.1, hfields.2.2.2⟩
    · simp [MediaInput.successResult, MediaInput.pipelinePhase_eq_getD]

/-- Witness for `mediaInput_color_paths` on the concrete offline
environment: no conversion and no CPU transform appear in the trace, and
the stored pipeline is the default one. -/
theorem mediaInput_color_paths_witness :
    Ev.convertToFormat PixelFormat.rgba32F ∉
        (MediaInput.Value envOffline freshMediaState MediaInput.texOutId 0).trace ∧
      Ev.cpuColorTransform ∉
        (MediaInput.Value envOffline freshMediaState MediaInput.texOutId 0).trace ∧
      (MediaInput.Value envOffline freshMediaState MediaInput.texOutId 0).state.pipeline =
        some Pipeline.defaultPipeline := by
  have h := (mediaInput_color_paths envOffline freshMediaState 0
      ⟨RenderMode.offline, 4, 4, PixelFormat.rgba8⟩ ⟨"ffmpeg", 0⟩ ⟨none⟩
      [Ev.createDecoder "ffmpeg"] ⟨2, 2, PixelFormat.rgba8, [7, 7, 7, 7]⟩
      rfl rfl rfl rfl).2 rfl
  exact ⟨h.1 PixelFormat.rgba32F, h.2.1, h.2.2.2⟩
